import Mathlib

set_option maxRecDepth 4000

/-!
Verification of the Skill-Synch interview-analysis backend.

This file is a shallow embedding, in Lean 4, of the Python sources
`backend/interview_utils.py`, `backend/video_utils.py` and
`backend/video_error_handling.py`.  Pure text-scoring functions are
translated directly; the stateful pipeline (video extraction,
transcription, top-level orchestration) is modelled with explicit
oracle parameters standing for the results of external library calls,
and exception flow is modelled with `Except`.  Python float arithmetic
on the small decimal constants of the scoring formulas is modelled
exactly over `ℚ`; Python `int()` is modelled as truncation toward zero.
-/

/-! ### Python string primitives -/

/-- ASCII lowercasing of one character; models Python `str.lower` on the
ASCII texts this backend handles. -/
def asciiLower (c : Char) : Char :=
  if 'A' ≤ c ∧ c ≤ 'Z' then Char.ofNat (c.toNat + 32) else c

/-- Models Python `str.lower` (ASCII range). -/
def pyToLower (s : String) : String := ⟨s.data.map asciiLower⟩

/-- Does `pat` occur at the head of `s`. -/
def matchesAt : List Char → List Char → Bool
  | [], _ => true
  | _ :: _, [] => false
  | p :: ps, c :: cs => p == c && matchesAt ps cs

/-- Fuel-indexed non-overlapping left-to-right occurrence counter.
Called with fuel = length of the scanned list, which is an invariant
bound on the remaining list length, so the fuel never runs out. -/
def countFuel : Nat → List Char → List Char → Nat
  | 0, _, _ => 0
  | _ + 1, _, [] => 0
  | fuel + 1, pat, c :: rest =>
    if matchesAt pat (c :: rest) then
      1 + countFuel fuel pat (rest.drop (pat.length - 1))
    else
      countFuel fuel pat rest

/-- Models Python `s.count(pat)`: non-overlapping occurrences, scanning
left to right; `s.count("")` is `len(s) + 1` in Python. -/
def pyCount (s pat : String) : Nat :=
  if pat.data.isEmpty then s.data.length + 1
  else countFuel s.data.length pat.data s.data

/-- Models Python `pat in s` (substring membership). -/
def pyContains (s pat : String) : Bool := decide (0 < pyCount s pat)

/-- ASCII whitespace recognised by Python `str.split()`. -/
def isPySpace (c : Char) : Bool :=
  c == ' ' || c == '\t' || c == '\n' || c == '\r' || c == '\x0b' || c == '\x0c'

/-- Worker for `pySplitWs`; `acc` holds the current word reversed. -/
def splitWsAux : List Char → List Char → List String
  | acc, [] => if acc.isEmpty then [] else [⟨acc.reverse⟩]
  | acc, c :: rest =>
    if isPySpace c then
      if acc.isEmpty then splitWsAux [] rest
      else ⟨acc.reverse⟩ :: splitWsAux [] rest
    else splitWsAux (c :: acc) rest

/-- Models Python `s.split()` with no argument: split on whitespace
runs, discarding empty pieces. -/
def pySplitWs (s : String) : List String := splitWsAux [] s.data

/-- Split a character list on a separator character, keeping empty
pieces, as Python `s.split(sep)` does. -/
def splitCharAux (sep : Char) : List Char → List (List Char)
  | [] => [[]]
  | c :: rest =>
    match splitCharAux sep rest with
    | [] => [[c]]
    | w :: ws => if c == sep then [] :: w :: ws else (c :: w) :: ws

/-- Models Python `s.split('.')`. -/
def pySplitDot (s : String) : List String :=
  (splitCharAux '.' s.data).map (fun l => ⟨l⟩)

/-- Final path component, as `pathlib.PurePath(p).name` (POSIX flavour):
the last nonempty `/`-separated piece. -/
def pathName (p : String) : String :=
  match ((splitCharAux '/' p.data).filter (fun l => !l.isEmpty)).getLast? with
  | some l => ⟨l⟩
  | none => ""

/-- Worker for `pathSuffix`: walks the reversed name collecting the
characters after the last dot; the dot must be neither the first nor
the last character of the name, exactly as `pathlib`'s
`0 < name.rfind('.') < len(name) - 1` check. -/
def suffixAux : List Char → List Char → List Char
  | _, [] => []
  | acc, c :: rest =>
    if c == '.' then
      if !acc.isEmpty && !rest.isEmpty then '.' :: acc else []
    else suffixAux (c :: acc) rest

/-- Models `pathlib.PurePath(p).suffix`. -/
def pathSuffix (p : String) : String := ⟨suffixAux [] (pathName p).data.reverse⟩

/-- Python `int(q)` on a real value: truncation toward zero. -/
def pyTrunc (q : ℚ) : ℤ := if 0 ≤ q then ⌊q⌋ else ⌈q⌉

/-! ### `interview_utils.analyze_speech_patterns` (lines 78-119) -/

def filler_words : List String :=
  ["um", "uh", "er", "ah", "like", "you know", "so", "basically", "actually"]

def confident_phrases : List String :=
  ["i am confident", "i believe", "i know", "definitely", "absolutely", "certainly"]

def uncertain_phrases : List String :=
  ["maybe", "i think", "probably", "not sure", "i guess", "perhaps"]

/-- `sum(text.lower().count(w) for w in pats)`. -/
def countSum (text : String) (pats : List String) : Nat :=
  (pats.map (fun w => pyCount (pyToLower text) w)).sum

def fillerCount (text : String) : Nat := countSum text filler_words

/-- `len(text.split())`. -/
def totalWords (text : String) : Nat := (pySplitWs text).length

/-- `hesitation_rate = min(100, (filler_count / max(total_words, 1)) * 100)
if total_words > 0 else 0` (line 90), kept as an exact rational. -/
def hesitationRateQ (text : String) : ℚ :=
  if 0 < totalWords text then
    min 100 (((fillerCount text : ℚ) / ((max (totalWords text) 1 : Nat) : ℚ)) * 100)
  else 0

def confidentCount (text : String) : Nat := countSum text confident_phrases

def uncertainCount (text : String) : Nat := countSum text uncertain_phrases

/-- Lines 100-102: `confidence_base = max(0, 80 - hesitation_rate)`;
`confidence_adjustment = (confident_count * 5) - (uncertain_count * 3)`;
`confidence_score = min(100, max(0, confidence_base + confidence_adjustment))`. -/
def confidenceQ (text : String) : ℚ :=
  let confidence_base : ℚ := max 0 (80 - hesitationRateQ text)
  let confidence_adjustment : ℚ :=
    (confidentCount text : ℚ) * 5 - (uncertainCount text : ℚ) * 3
  min 100 (max 0 (confidence_base + confidence_adjustment))

/-- `sentences = text.split('.')` (line 105). -/
def sentenceList (text : String) : List String := pySplitDot text

/-- `avg_sentence_length = sum(len(s.split()) for s in sentences) / max(len(sentences), 1)`. -/
def avgSentenceLengthQ (text : String) : ℚ :=
  ((((sentenceList text).map (fun s => (pySplitWs s).length)).sum : Nat) : ℚ) /
    ((max (sentenceList text).length 1 : Nat) : ℚ)

/-- Lines 109-110: `clarity_score = 100 - abs(avg_sentence_length - 15) * 2`
then `clarity_score = max(50, min(100, clarity_score))`. -/
def clarityQ (text : String) : ℚ :=
  max 50 (min 100 (100 - |avgSentenceLengthQ text - 15| * 2))

structure SpeechMetrics where
  confidence_score : ℤ
  clarity_score : ℤ
  hesitation_rate : ℤ
  filler_word_count : Nat
  total_words : Nat
  avg_sentence_length : ℚ
deriving DecidableEq

/-- `analyze_speech_patterns` (lines 78-119).  The returned
`avg_sentence_length` is kept exact; the code's `round(·, 1)` on it is
display-only formatting. -/
def analyze_speech_patterns (text : String) : SpeechMetrics :=
  { confidence_score := pyTrunc (confidenceQ text)
    clarity_score := pyTrunc (clarityQ text)
    hesitation_rate := pyTrunc (hesitationRateQ text)
    filler_word_count := fillerCount text
    total_words := totalWords text
    avg_sentence_length := avgSentenceLengthQ text }

/-! ### `interview_utils.analyze_sentiment_emotions` (lines 121-187) -/

def positive_words : List String :=
  ["excited", "confident", "enjoy", "love", "passionate", "skilled"]

def negative_words : List String :=
  ["nervous", "worried", "difficult", "struggle", "unsure"]

/-- `sum(1 for word in ws if word in text.lower())`. -/
def memberCount (text : String) (ws : List String) : Nat :=
  (ws.filter (fun w => pyContains (pyToLower text) w)).length

def positiveCount (text : String) : Nat := memberCount text positive_words

def negativeCount (text : String) : Nat := memberCount text negative_words

/-- Basic-mode polarity (lines 144-148): `(pos - neg)/(pos + neg)` when
there is at least one sentiment word, else the `0.1` default. -/
def basicPolarity (text : String) : ℚ :=
  let total_sentiment_words := positiveCount text + negativeCount text
  if 0 < total_sentiment_words then
    ((positiveCount text : ℚ) - (negativeCount text : ℚ)) / (total_sentiment_words : ℚ)
  else 1 / 10

def emotion_keywords : List (String × List String) :=
  [("enthusiasm", ["excited", "passionate", "love", "enjoy", "thrilled", "eager"]),
   ("confidence", ["confident", "capable", "skilled", "experienced", "proficient"]),
   ("nervousness", ["nervous", "worried", "anxious", "uncertain", "hesitant"]),
   ("professionalism", ["professional", "responsible", "reliable", "dedicated", "committed"]),
   ("curiosity", ["interested", "curious", "learn", "explore", "discover"])]

/-- Lines 161-164: keyword-hit count per emotion, in insertion order. -/
def emotionScores (text : String) : List (String × Nat) :=
  emotion_keywords.map (fun p => (p.1, countSum text p.2))

def emotionTotalHits (text : String) : Nat :=
  ((emotionScores text).map Prod.snd).sum

/-- Line 167: `total_emotion_score = sum(emotion_scores.values()) or 1`. -/
def emotionDenominator (text : String) : Nat :=
  if emotionTotalHits text = 0 then 1 else emotionTotalHits text

/-- `int((score / total) * 100)` for one score. -/
def pctOf (total : Nat) (score : Nat) : ℤ :=
  pyTrunc (((score : ℚ) / (total : ℚ)) * 100)

/-- Lines 168-171: the emotion-percentage dictionary, as an insertion-
ordered association list. -/
def emotionPercentages (text : String) : List (String × ℤ) :=
  (emotionScores text).map (fun p => (p.1, pctOf (emotionDenominator text) p.2))

def emotionPercentSum (text : String) : ℤ :=
  ((emotionPercentages text).map Prod.snd).sum

/-- Python `max(iterable, key=...)` keeps the first element on ties:
replace the running best only on a strictly larger value. -/
def argmaxFirstGo (best : String) (bestVal : ℤ) : List (String × ℤ) → String
  | [] => best
  | p :: rest =>
    if bestVal < p.2 then argmaxFirstGo p.1 p.2 rest
    else argmaxFirstGo best bestVal rest

/-- `max(emotion_percentages, key=emotion_percentages.get)` (line 186). -/
def argmaxFirst : List (String × ℤ) → String
  | [] => ""
  | p :: rest => argmaxFirstGo p.1 p.2 rest

structure SentimentMetrics where
  overall_sentiment : String
  polarity : ℚ
  subjectivity : ℚ
  emotion_breakdown : List (String × ℤ)
  dominant_emotion : String
deriving DecidableEq

/-- `analyze_sentiment_emotions` (lines 121-187).  In advanced mode the
polarity and subjectivity come from the external TextBlob library,
modelled here as oracle arguments (the dead in-function ImportError
fallback of lines 131-134 is unreachable once the module-level import
succeeded).  The sentiment classification of lines 174-179 uses the
unrounded polarity; the `round(·, 2)` of lines 183-184 is display-only
formatting and is omitted. -/
def analyze_sentiment_emotions (advanced : Bool) (blobPolarity blobSubjectivity : ℚ)
    (text : String) : SentimentMetrics :=
  let polarity : ℚ := if advanced then blobPolarity else basicPolarity text
  let subjectivity : ℚ := if advanced then blobSubjectivity else 3 / 5
  let overall : String :=
    if 3 / 10 < polarity then "Positive"
    else if polarity < -(3 / 10) then "Negative"
    else "Neutral"
  { overall_sentiment := overall
    polarity := polarity
    subjectivity := subjectivity
    emotion_breakdown := emotionPercentages text
    dominant_emotion := argmaxFirst (emotionPercentages text) }

/-! ### `interview_utils.analyze_content_quality` (lines 189-232) -/

def technical_skills : List String :=
  ["python", "javascript", "java", "react", "node", "sql", "aws", "docker",
   "kubernetes", "git", "html", "css", "mongodb", "postgresql", "redis",
   "machine learning", "ai", "data science", "api", "rest", "microservices"]

def soft_skills : List String :=
  ["teamwork", "leadership", "communication", "problem solving", "creative",
   "analytical", "organized", "adaptable", "collaborative", "motivated"]

def experience_indicators : List String :=
  ["experience", "worked", "developed", "built", "implemented", "managed",
   "led", "created", "designed", "optimized", "maintained", "deployed"]

/-- `[skill for skill in skills if skill in text.lower()]`. -/
def mentionedIn (text : String) (skills : List String) : List String :=
  skills.filter (fun k => pyContains (pyToLower text) k)

structure ContentMetrics where
  content_quality_score : Nat
  technical_skills_mentioned : List String
  soft_skills_mentioned : List String
  experience_indicators_count : Nat
  technical_score : Nat
  soft_skills_score : Nat
  experience_score : Nat
deriving DecidableEq

/-- `analyze_content_quality` (lines 189-232). -/
def analyze_content_quality (text : String) : ContentMetrics :=
  let mentioned_technical := mentionedIn text technical_skills
  let mentioned_soft := mentionedIn text soft_skills
  let mentioned_experience := mentionedIn text experience_indicators
  let technical_score := min 40 (mentioned_technical.length * 8)
  let soft_score := min 30 (mentioned_soft.length * 6)
  let experience_score := min 30 (mentioned_experience.length * 3)
  { content_quality_score := technical_score + soft_score + experience_score
    technical_skills_mentioned := mentioned_technical
    soft_skills_mentioned := mentioned_soft
    experience_indicators_count := mentioned_experience.length
    technical_score := technical_score
    soft_skills_score := soft_score
    experience_score := experience_score }

/-! ### Overall score (`analyze_interview`, lines 320-325) -/

/-- The weighted sum
`confidence * 0.3 + clarity * 0.25 + (100 - hesitation) * 0.15 + content * 0.3`,
with the float constants taken exactly. -/
def overall_weighted_sum (c cl h cq : ℤ) : ℚ :=
  (c : ℚ) * (3 / 10) + (cl : ℚ) * (1 / 4) + ((100 : ℚ) - (h : ℚ)) * (3 / 20) +
    (cq : ℚ) * (3 / 10)

/-- `overall_score = int(...)` (line 320): truncation, not rounding. -/
def overall_score_of (c cl h cq : ℤ) : ℤ := pyTrunc (overall_weighted_sum c cl h cq)

/-- The overall score the orchestrator computes for a given transcript. -/
def analyze_interview_overall_score (text : String) : ℤ :=
  overall_score_of (analyze_speech_patterns text).confidence_score
    (analyze_speech_patterns text).clarity_score
    (analyze_speech_patterns text).hesitation_rate
    ((analyze_content_quality text).content_quality_score : ℤ)

/-- The spec's reading of the same aggregation: the weighted sum rounded
to the nearest integer. -/
def overall_score_round_spec (text : String) : ℤ :=
  round (overall_weighted_sum (analyze_speech_patterns text).confidence_score
    (analyze_speech_patterns text).clarity_score
    (analyze_speech_patterns text).hesitation_rate
    ((analyze_content_quality text).content_quality_score : ℤ))

/-- The spec's confidence formula as claimed:
`clamp(0, 100, (80 - hesitation_rate) + 5*confident - 3*uncertain)`,
without the code's inner clamp of `80 - hesitation_rate` at 0. -/
def confidence_clamp_spec (text : String) : ℤ :=
  pyTrunc (min 100 (max 0 ((80 - hesitationRateQ text) +
    ((confidentCount text : ℚ) * 5 - (uncertainCount text : ℚ) * 3))))

/-! ### `video_utils.py`: video probing, audio extraction, pipeline -/

def SUPPORTED_VIDEO_FORMATS : List String :=
  [".mp4", ".avi", ".mov", ".mkv", ".webm", ".flv", ".wmv", ".m4v"]

/-- `is_video_file` (video_utils.py lines 20-23):
`Path(file_path).suffix.lower() in SUPPORTED_VIDEO_FORMATS`. -/
def is_video_file (file_path : String) : Bool :=
  SUPPORTED_VIDEO_FORMATS.contains (pyToLower (pathSuffix file_path))

/-- Result of the external `get_video_info` probe: either the error
entry of its returned dict, or a probed duration in seconds.  (The
resolution, fps and frame-count entries play no role in the verified
claims and are not modelled.) -/
inductive InfoRes where
  | err (msg : String)
  | ok (duration : ℚ)
deriving DecidableEq

/-- `extract_audio_from_video` (lines 64-106): the MoviePy extraction.
The oracle argument is the outcome of the MoviePy library call; on
success the payload is the path of the written WAV file, on failure
the function re-raises with the wrapped message of line 106. -/
def extract_audio_from_video (moviepyRes : Except String String) : Except String String :=
  match moviepyRes with
  | .ok p => .ok p
  | .error e => .error ("Audio extraction failed: " ++ e)

/-- `extract_audio_with_ffmpeg` (lines 108-132): tries the direct
ffmpeg transcode; on any failure it falls back to the MoviePy path
(line 132) instead of propagating the error. -/
def extract_audio_with_ffmpeg (ffmpegRes moviepyRes : Except String String) :
    Except String String :=
  match ffmpegRes with
  | .ok p => .ok p
  | .error _ => extract_audio_from_video moviepyRes

/-- Oracle bundle for one run of the video pipeline: the name the
`tempfile.mkdtemp()` call would create, the probe outcome, the outcomes
of the two extraction library calls, and the `os.path.exists` check on
the extracted file. -/
structure VideoEnv where
  tempDirName : String
  infoRes : InfoRes
  ffmpegRes : Except String String
  moviepyRes : Except String String
  extractedFileExists : Bool

/-- The dict returned by `process_video_for_interview_analysis`; on the
failure path the real dict carries no `temp_dir`/`audio_path` keys,
modelled by `none` / the empty string. -/
structure PVResult where
  success : Bool
  error : String
  audio_path : String
  temp_dir : Option String
deriving DecidableEq

/-- A pipeline run result together with the temp directories the run
created on disk (`tempfile.mkdtemp()` at line 148 always runs first). -/
structure PVRun where
  result : PVResult
  createdDirs : List String
deriving DecidableEq

/-- `process_video_for_interview_analysis` (lines 134-187).  Note that
line 168 invokes `extract_audio_from_video` (the MoviePy strategy)
directly; `extract_audio_with_ffmpeg` is never called here.  Every
failure inside the `try` block is caught at line 182 and turned into a
`success: False` dict that does not mention the already-created temp
directory. -/
def process_video_for_interview_analysis (video_path : String) (env : VideoEnv) : PVRun :=
  let temp_dir := env.tempDirName
  let created := [temp_dir]
  if !is_video_file video_path then
    ⟨⟨false, "Unsupported video format", "", none⟩, created⟩
  else
    match env.infoRes with
    | .err m => ⟨⟨false, m, "", none⟩, created⟩
    | .ok duration =>
      if 600 < duration then
        ⟨⟨false, "Video too long. Maximum duration: 600 seconds", "", none⟩, created⟩
      else
        match extract_audio_from_video env.moviepyRes with
        | .error e => ⟨⟨false, e, "", none⟩, created⟩
        | .ok p =>
          if !env.extractedFileExists then
            ⟨⟨false, "Audio extraction completed but file not found", "", none⟩, created⟩
          else
            ⟨⟨true, "", p, some temp_dir⟩, created⟩

/-! ### `interview_utils.transcribe_audio` (lines 46-76) -/

/-- Outcome of one recognition attempt: success with recognised text,
`sr.UnknownValueError`, `sr.RequestError`, or any other exception
(file conversion, I/O, ...). -/
inductive RecogOutcome where
  | success (text : String)
  | unknownValue
  | requestError (msg : String)
  | otherError (msg : String)

/-- The canned transcript returned when the speech libraries are not
installed (line 50). -/
def DEMO_TRANSCRIPT_UNAVAILABLE : String :=
  "hello my name is john and i am excited about this opportunity i have experience in python javascript and react i enjoy working with teams and solving complex problems um i have worked on several projects and i am confident in my abilities"

/-- The canned transcript returned when an unexpected transcription
exception is caught (line 76). -/
def DEMO_TRANSCRIPT_FALLBACK : String :=
  "hello my name is john and i am excited about this opportunity i have experience in python javascript and react i enjoy working with teams and solving complex problems"

/-- `transcribe_audio` (lines 46-76).  `advanced` is the module-level
`ADVANCED_FEATURES` flag; `recognize` is the oracle for the whole
recognition attempt on a given audio path (WAV conversion included).
Every exception branch of the source is caught, so the embedding is a
total `String`-valued function: no outcome propagates an error. -/
def transcribe_audio (advanced : Bool) (recognize : String → RecogOutcome)
    (audio_path : String) : String :=
  if !advanced then DEMO_TRANSCRIPT_UNAVAILABLE
  else
    match recognize audio_path with
    | .success t => pyToLower t
    | .unknownValue => "Could not understand audio clearly"
    | .requestError e => "Error with speech recognition service: " ++ e
    | .otherError _ => DEMO_TRANSCRIPT_FALLBACK

/-! ### `interview_utils.analyze_interview` (lines 277-432) -/

/-- The slice of the report relevant to the verified claims. -/
structure ReportModel where
  overall_score : ℤ
  transcript : String
  confidence_score : ℤ
  clarity_score : ℤ
  hesitation_rate : ℤ
  content_quality_score : ℤ
deriving DecidableEq

/-- The hardcoded fallback report of lines 388-432 (the modelled
slice: overall 78, placeholder transcript, speech metrics 78/85/12,
content quality 75). -/
def fallbackReport : ReportModel :=
  ⟨78, "Audio processing unavailable - using demo analysis", 78, 85, 12, 75⟩

/-- The report built on the success path (lines 328-340), with the
analyzer results computed from the transcript. -/
def interviewSuccessReport (t : String) : ReportModel :=
  ⟨analyze_interview_overall_score t, t,
   (analyze_speech_patterns t).confidence_score,
   (analyze_speech_patterns t).clarity_score,
   (analyze_speech_patterns t).hesitation_rate,
   ((analyze_content_quality t).content_quality_score : ℤ)⟩

/-- Oracle bundle for one orchestrator run.  `transcribeStep` stands
for the call to `transcribe_audio` on a given audio path and
`analysisStep` for the analysis/report-building steps on the
transcript; both are allowed to raise (`Except.error`) so that the
claim about exceptions raised anywhere in the pipeline can be stated,
even though `transcribe_audio` itself never raises. -/
structure InterviewEnv where
  videoAvailable : Bool
  filePath : String
  venv : VideoEnv
  transcribeStep : String → Except String String
  analysisStep : String → Except String Unit

/-- One orchestrator run: the returned report, the temp directories
created during the run, and the directories passed to
`cleanup_temp_files` (which itself never raises: it catches all its
exceptions at video_utils.py lines 203-204). -/
structure InterviewRun where
  report : ReportModel
  createdDirs : List String
  cleanedDirs : List String
deriving DecidableEq

/-- `VIDEO_PROCESSING_AVAILABLE and is_video_file(file_path)` (line 287). -/
def isVideoBranch (env : InterviewEnv) : Bool :=
  env.videoAvailable && is_video_file env.filePath

def pvOf (env : InterviewEnv) : PVRun :=
  process_video_for_interview_analysis env.filePath env.venv

/-- The part of `analyze_interview` after the audio path is settled
(lines 304-378 and the handler at 380-432): on any raise the handler
cleans up `temp_dir` when it was assigned and returns the fallback
report; on success the cleanup of lines 375-376 runs. -/
def runAfterExtraction (env : InterviewEnv) (created : List String)
    (tempDir : Option String) (audioPath : String) : InterviewRun :=
  match env.transcribeStep audioPath with
  | .error _ => ⟨fallbackReport, created, tempDir.toList⟩
  | .ok t =>
    match env.analysisStep t with
    | .error _ => ⟨fallbackReport, created, tempDir.toList⟩
    | .ok _ => ⟨interviewSuccessReport t, created, tempDir.toList⟩

/-- `analyze_interview` (lines 277-432).  When video processing
reports `success: False` the orchestrator raises (line 294) and the
handler runs with its local `temp_dir` still `None`, so nothing is
cleaned even though the pipeline created a temp directory. -/
def analyze_interview (env : InterviewEnv) : InterviewRun :=
  if isVideoBranch env then
    let pv := pvOf env
    if pv.result.success then
      runAfterExtraction env pv.createdDirs pv.result.temp_dir pv.result.audio_path
    else
      ⟨fallbackReport, pv.createdDirs, []⟩
  else
    runAfterExtraction env [] none env.filePath

/-- Did the orchestrator take the video branch and see extraction fail. -/
def extractionFailed (env : InterviewEnv) : Bool :=
  isVideoBranch env && !(pvOf env).result.success

/-- The audio path handed to transcription. -/
def theAudioPath (env : InterviewEnv) : String :=
  if isVideoBranch env && (pvOf env).result.success then (pvOf env).result.audio_path
  else env.filePath

/-- Would the transcription/analysis stages raise, for a given audio path. -/
def stageFailsAt (env : InterviewEnv) (path : String) : Bool :=
  match env.transcribeStep path with
  | .error _ => true
  | .ok t =>
    match env.analysisStep t with
    | .error _ => true
    | .ok _ => false

/-- Did a stage after extraction raise. -/
def laterFailed (env : InterviewEnv) : Bool := stageFailsAt env (theAudioPath env)

/-! ### `video_error_handling.validate_video_file` (lines 28-121) -/

/-- Abstract state of the file under validation. -/
structure FileState where
  fileExists : Bool
  sizeBytes : Nat
  path : String
  libsAvailable : Bool
  infoRes : InfoRes
deriving DecidableEq

/-- Outcome of validation: `valid basicOnly` models the returned dict
(`basicOnly` marks the degraded branch taken when the video libraries
are unavailable), `invalid msg` models a raised `VideoValidationError`
carrying `msg`.  Messages that the source builds with interpolated
numbers are modelled by their fixed prefix. -/
inductive ValidationResult where
  | valid (basicOnly : Bool)
  | invalid (msg : String)
deriving DecidableEq

/-- `validate_video_file` (lines 28-121), with default limits
`max_size_mb=100`, `max_duration_seconds=600`. -/
def validate_video_file (fs : FileState) (max_size_mb max_duration_seconds : ℚ) :
    ValidationResult :=
  if !fs.fileExists then .invalid ("Video file not found: " ++ fs.path)
  else
    let file_size_mb : ℚ := (fs.sizeBytes : ℚ) / (1024 * 1024)
    if max_size_mb < file_size_mb then .invalid "Video file too large"
    else
      let file_ext := pyToLower (pathSuffix fs.path)
      if !SUPPORTED_VIDEO_FORMATS.contains file_ext then
        .invalid ("Unsupported video format: " ++ file_ext)
      else if !fs.libsAvailable then .valid true
      else
        match fs.infoRes with
        | .err m => .invalid ("Video file corrupted or unreadable: " ++ m)
        | .ok duration =>
          if max_duration_seconds < duration then .invalid "Video too long"
          else if duration < 1 then .invalid "Video file appears to be empty or corrupted"
          else .valid false

/-! ### Spec-side definitions (from the spec's words, for comparison) -/

/-- Maximum of the values of a nonempty association list. -/
def specMaxVal : List (String × ℤ) → ℤ
  | [] => 0
  | [p] => p.2
  | p :: rest => max p.2 (specMaxVal rest)

/-- The spec's description of `dominant_emotion`: "the key with the
maximum percentage, ties resolved by first-seen (insertion) order" —
the first entry whose value is at least every later value. -/
def specFirstMax : List (String × ℤ) → String
  | [] => ""
  | [p] => p.1
  | p :: rest => if specMaxVal rest ≤ p.2 then p.1 else specFirstMax rest

/-! ### Helper lemmas -/

lemma pyTrunc_eq_floor {q : ℚ} (h : 0 ≤ q) : pyTrunc q = ⌊q⌋ := by
  simp [pyTrunc, h]

lemma pyTrunc_bounds {a b : ℤ} {q : ℚ} (ha : 0 ≤ a) (h1 : (a : ℚ) ≤ q) (h2 : q ≤ (b : ℚ)) :
    a ≤ pyTrunc q ∧ pyTrunc q ≤ b := by
  have hq : 0 ≤ q := le_trans (by exact_mod_cast ha) h1
  rw [pyTrunc_eq_floor hq]
  refine ⟨Int.le_floor.mpr h1, ?_⟩
  have hf : (⌊q⌋ : ℚ) ≤ (b : ℚ) := le_trans (Int.floor_le q) h2
  exact_mod_cast hf

lemma hesitationRateQ_bounds (t : String) : 0 ≤ hesitationRateQ t ∧ hesitationRateQ t ≤ 100 := by
  unfold hesitationRateQ
  split
  · exact ⟨le_min (by norm_num) (by positivity), min_le_left _ _⟩
  · norm_num

lemma confidenceQ_bounds (t : String) : 0 ≤ confidenceQ t ∧ confidenceQ t ≤ 100 := by
  unfold confidenceQ
  exact ⟨le_min (by norm_num) (le_max_left _ _), min_le_left _ _⟩

lemma clarityQ_bounds (t : String) : 50 ≤ clarityQ t ∧ clarityQ t ≤ 100 := by
  unfold clarityQ
  exact ⟨le_max_left _ _, max_le (by norm_num) (min_le_left _ _)⟩

lemma confidence_score_range (t : String) :
    0 ≤ (analyze_speech_patterns t).confidence_score ∧
      (analyze_speech_patterns t).confidence_score ≤ 100 := by
  have h := confidenceQ_bounds t
  exact pyTrunc_bounds le_rfl (by exact_mod_cast h.1) (by exact_mod_cast h.2)

lemma hesitation_score_range (t : String) :
    0 ≤ (analyze_speech_patterns t).hesitation_rate ∧
      (analyze_speech_patterns t).hesitation_rate ≤ 100 := by
  have h := hesitationRateQ_bounds t
  exact pyTrunc_bounds le_rfl (by exact_mod_cast h.1) (by exact_mod_cast h.2)

lemma clarity_score_range (t : String) :
    50 ≤ (analyze_speech_patterns t).clarity_score ∧
      (analyze_speech_patterns t).clarity_score ≤ 100 := by
  have h := clarityQ_bounds t
  exact pyTrunc_bounds (by norm_num) (by exact_mod_cast h.1) (by exact_mod_cast h.2)

lemma specMaxVal_cons (p : String × ℤ) (l : List (String × ℤ)) :
    specMaxVal (p :: l) = if l.isEmpty then p.2 else max p.2 (specMaxVal l) := by
  cases l <;> rfl

lemma le_specMaxVal_head (p : String × ℤ) (l : List (String × ℤ)) :
    p.2 ≤ specMaxVal (p :: l) := by
  rw [specMaxVal_cons]
  split
  · exact le_rfl
  · exact le_max_left _ _

lemma argmaxFirstGo_eq (rest : List (String × ℤ)) :
    ∀ (best : String) (bv : ℤ), argmaxFirstGo best bv rest = specFirstMax ((best, bv) :: rest) := by
  induction rest with
  | nil => intro best bv; rfl
  | cons p rest ih =>
    intro best bv
    by_cases h : bv < p.2
    · rw [argmaxFirstGo, if_pos h, ih p.1 p.2]
      have hm : ¬ specMaxVal (p :: rest) ≤ bv := by
        have := le_specMaxVal_head p rest
        omega
      rw [show specFirstMax ((best, bv) :: p :: rest) =
            if specMaxVal (p :: rest) ≤ bv then best else specFirstMax (p :: rest) from rfl,
        if_neg hm]
    · rw [argmaxFirstGo, if_neg h, ih best bv]
      push_neg at h
      cases rest with
      | nil =>
        have hm : specMaxVal [p] ≤ bv := by simpa [specMaxVal] using h
        rw [show specFirstMax ((best, bv) :: [p]) =
              if specMaxVal [p] ≤ bv then best else specFirstMax [p] from rfl,
          if_pos hm]
        rfl
      | cons q rest' =>
        rw [show specFirstMax ((best, bv) :: p :: q :: rest') =
              if specMaxVal (p :: q :: rest') ≤ bv then best
              else specFirstMax (p :: q :: rest') from rfl]
        rw [show specFirstMax ((best, bv) :: q :: rest') =
              if specMaxVal (q :: rest') ≤ bv then best else specFirstMax (q :: rest') from rfl]
        rw [show specFirstMax (p :: q :: rest') =
              if specMaxVal (q :: rest') ≤ p.2 then p.1 else specFirstMax (q :: rest') from rfl]
        rw [show specMaxVal (p :: q :: rest') = max p.2 (specMaxVal (q :: rest')) from rfl]
        by_cases hM : specMaxVal (q :: rest') ≤ bv
        · rw [if_pos hM, if_pos (by omega)]
        · rw [if_neg hM, if_neg (by omega), if_neg (by omega)]

lemma argmaxFirst_eq_specFirstMax (l : List (String × ℤ)) (h : l ≠ []) :
    argmaxFirst l = specFirstMax l := by
  cases l with
  | nil => exact absurd rfl h
  | cons p rest =>
    rw [argmaxFirst, argmaxFirstGo_eq rest p.1 p.2]

lemma pctOf_le (T s : Nat) (hT : 0 < T) : (pctOf T s : ℚ) ≤ (s : ℚ) * 100 / (T : ℚ) := by
  have hq : (0 : ℚ) ≤ ((s : ℚ) / (T : ℚ)) * 100 := by positivity
  rw [pctOf, pyTrunc_eq_floor hq]
  calc (⌊((s : ℚ) / (T : ℚ)) * 100⌋ : ℚ) ≤ ((s : ℚ) / (T : ℚ)) * 100 := Int.floor_le _
    _ = (s : ℚ) * 100 / (T : ℚ) := by ring

lemma pctOf_ge (T s : Nat) (hT : 0 < T) :
    (s : ℚ) * 100 / (T : ℚ) - 1 ≤ (pctOf T s : ℚ) := by
  have hq : (0 : ℚ) ≤ ((s : ℚ) / (T : ℚ)) * 100 := by positivity
  rw [pctOf, pyTrunc_eq_floor hq]
  have h := Int.sub_one_lt_floor (((s : ℚ) / (T : ℚ)) * 100)
  have heq : ((s : ℚ) / (T : ℚ)) * 100 = (s : ℚ) * 100 / (T : ℚ) := by ring
  linarith [h]

lemma pct_sum_bounds (T : Nat) (hT : 0 < T) (l : List (String × Nat)) :
    ((((l.map (fun p => (p.1, pctOf T p.2))).map Prod.snd).sum : ℤ) : ℚ) ≤
      (((l.map Prod.snd).sum : Nat) : ℚ) * 100 / (T : ℚ) ∧
    (((l.map Prod.snd).sum : Nat) : ℚ) * 100 / (T : ℚ) - (l.length : ℚ) ≤
      ((((l.map (fun p => (p.1, pctOf T p.2))).map Prod.snd).sum : ℤ) : ℚ) := by
  induction l with
  | nil => simp
  | cons p rest ih =>
    have h1 := pctOf_le T p.2 hT
    have h2 := pctOf_ge T p.2 hT
    simp only [List.map_cons, List.sum_cons, List.length_cons]
    rw [Int.cast_add, Nat.cast_add, Nat.cast_add, Nat.cast_one]
    have hsplit : ((p.2 : ℚ) + (((rest.map Prod.snd).sum : Nat) : ℚ)) * 100 / (T : ℚ) =
        (p.2 : ℚ) * 100 / (T : ℚ) + (((rest.map Prod.snd).sum : Nat) : ℚ) * 100 / (T : ℚ) := by
      ring
    rw [hsplit]
    constructor
    · linarith [ih.1]
    · linarith [ih.2]

lemma pct_sum_zero (T : Nat) (l : List (String × Nat)) (h : (l.map Prod.snd).sum = 0) :
    (((l.map (fun p => (p.1, pctOf T p.2))).map Prod.snd).sum : ℤ) = 0 := by
  induction l with
  | nil => simp
  | cons p rest ih =>
    simp only [List.map_cons, List.sum_cons] at h ⊢
    have hp : p.2 = 0 := by omega
    have hr : (rest.map Prod.snd).sum = 0 := by omega
    rw [hp, ih hr]
    simp [pctOf, pyTrunc]

lemma pv_created (env : InterviewEnv) : (pvOf env).createdDirs = [env.venv.tempDirName] := by
  unfold pvOf process_video_for_interview_analysis
  repeat' split
  all_goals rfl

lemma pv_result_shape (env : InterviewEnv) :
    (pvOf env).result.success = false ∨
      (pvOf env).result.temp_dir = some env.venv.tempDirName := by
  unfold pvOf process_video_for_interview_analysis
  repeat' split
  all_goals simp

lemma pv_success_tempdir (env : InterviewEnv) (h : (pvOf env).result.success = true) :
    (pvOf env).result.temp_dir = some env.venv.tempDirName := by
  rcases pv_result_shape env with hf | ht
  · rw [h] at hf; cases hf
  · exact ht

lemma runAfter_spec (env : InterviewEnv) (created : List String) (tempDir : Option String)
    (path : String) :
    (runAfterExtraction env created tempDir path).createdDirs = created ∧
    (runAfterExtraction env created tempDir path).cleanedDirs = tempDir.toList ∧
    (stageFailsAt env path = true →
      (runAfterExtraction env created tempDir path).report = fallbackReport) := by
  unfold runAfterExtraction stageFailsAt
  rcases h1 : env.transcribeStep path with e | t
  · simp [h1]
  · rcases h2 : env.analysisStep t with e | u
    · simp [h1, h2]
    · simp [h1, h2]

/-! ### Claim theorems -/

/-- C1 counterexample: the orchestrator computes `int(...)` (truncation),
not `round(...)`.  For the transcript "i am confident maybe yes" the
analyzers give confidence 82, clarity 80, hesitation 0, content 0, so
the weighted sum is 59.6: the code returns 59 while the claimed
rounding gives 60. -/
theorem C1_counterexample :
    analyze_interview_overall_score "i am confident maybe yes" = 59 ∧
    overall_score_round_spec "i am confident maybe yes" = 60 ∧
    (analyze_speech_patterns "i am confident maybe yes").confidence_score = 82 ∧
    (analyze_speech_patterns "i am confident maybe yes").clarity_score = 80 ∧
    (analyze_speech_patterns "i am confident maybe yes").hesitation_rate = 0 ∧
    (analyze_content_quality "i am confident maybe yes").content_quality_score = 0 := by
  refine ⟨?_, ?_, ?_, ?_, ?_, ?_⟩ <;> with_unfolding_all decide

/-- C1 amended: for every transcript the orchestrator's overall_score is
the weighted sum 0.30·confidence + 0.25·clarity + 0.15·(100−hesitation)
+ 0.30·content_quality truncated to an integer (equivalently floored,
the sum being nonnegative), and the documented hand-computed example
confidence=78, clarity=85, hesitation=12, content=75 does give 80,
because int(80.35) = round(80.35) = 80. -/
theorem C1_amended : (∀ t : String,
    analyze_interview_overall_score t =
      ⌊overall_weighted_sum (analyze_speech_patterns t).confidence_score
        (analyze_speech_patterns t).clarity_score
        (analyze_speech_patterns t).hesitation_rate
        ((analyze_content_quality t).content_quality_score : ℤ)⌋) ∧
    overall_score_of 78 85 12 75 = 80 ∧
    round (overall_weighted_sum 78 85 12 75) = 80 := by
  refine ⟨fun t => ?_, by with_unfolding_all decide, by with_unfolding_all decide⟩
  have hc := confidence_score_range t
  have hcl := clarity_score_range t
  have hh := hesitation_score_range t
  unfold analyze_interview_overall_score overall_score_of
  apply pyTrunc_eq_floor
  unfold overall_weighted_sum
  have h1 : (0 : ℚ) ≤ ((analyze_speech_patterns t).confidence_score : ℚ) := by
    exact_mod_cast hc.1
  have h2 : (0 : ℚ) ≤ ((analyze_speech_patterns t).clarity_score : ℚ) := by
    have : (0 : ℤ) ≤ (analyze_speech_patterns t).clarity_score := by linarith [hcl.1]
    exact_mod_cast this
  have h3 : ((analyze_speech_patterns t).hesitation_rate : ℚ) ≤ 100 := by
    exact_mod_cast hh.2
  have h4 : (0 : ℚ) ≤ ((((analyze_content_quality t).content_quality_score : ℤ)) : ℚ) := by
    have : (0 : ℤ) ≤ ((analyze_content_quality t).content_quality_score : ℤ) := by positivity
    exact_mod_cast this
  nlinarith [h1, h2, h3, h4]

/-- C2 counterexample: the claimed formula
`clamp(0,100,(80−hesitation)+5·confident−3·uncertain)` disagrees with
the code, which clamps `80 − hesitation_rate` at 0 before adding the
phrase adjustment.  The transcript "absolutely" contains the filler
substring "so", giving hesitation 100, and the confident phrase
"absolutely": the code returns 5, the claimed formula gives 0. -/
theorem C2_counterexample :
    (analyze_speech_patterns "absolutely").confidence_score = 5 ∧
    confidence_clamp_spec "absolutely" = 0 ∧
    (analyze_speech_patterns "absolutely").hesitation_rate = 100 := by
  refine ⟨?_, ?_, ?_⟩ <;> with_unfolding_all decide

/-- C2 amended: confidence_score equals
`clamp(0,100, max(0, 80 − hesitation_rate) + 5·confident − 3·uncertain)`
— the base term is clamped at 0 first; whenever the hesitation rate is
at most 80 this coincides with the formula as originally claimed. -/
theorem C2_amended (t : String) :
    (analyze_speech_patterns t).confidence_score =
      pyTrunc (min 100 (max 0 (max 0 (80 - hesitationRateQ t) +
        ((confidentCount t : ℚ) * 5 - (uncertainCount t : ℚ) * 3)))) ∧
    (hesitationRateQ t ≤ 80 →
      (analyze_speech_patterns t).confidence_score = confidence_clamp_spec t) := by
  constructor
  · rfl
  · intro h
    have hb : max 0 (80 - hesitationRateQ t) = 80 - hesitationRateQ t :=
      max_eq_right (by linarith)
    show pyTrunc (confidenceQ t) = confidence_clamp_spec t
    unfold confidenceQ confidence_clamp_spec
    rw [hb]

/-- C2 amended witness at the transcript "hello": the hesitation rate is
0 ≤ 80 and the code agrees with the claim's formula there. -/
theorem C2_amended_witness :
    hesitationRateQ "hello" ≤ 80 ∧
    (analyze_speech_patterns "hello").confidence_score = confidence_clamp_spec "hello" := by
  refine ⟨by with_unfolding_all decide, (C2_amended "hello").2 (by with_unfolding_all decide)⟩

/-- C3 counterexample to the cleanup conjunct: a run in which video
extraction fails (MoviePy raises) after `tempfile.mkdtemp()` created
a temp directory.  The failure dict carries no `temp_dir` key, so the
orchestrator's handler sees its local `temp_dir` still `None` and
cleans nothing: the created directory leaks, while the hardcoded
fallback report is returned. -/
theorem C3_counterexample :
    (analyze_interview
      { videoAvailable := true
        filePath := "clip.mp4"
        venv := { tempDirName := "/tmp/pv1", infoRes := InfoRes.ok 10,
                  ffmpegRes := Except.error "ffmpeg missing",
                  moviepyRes := Except.error "moviepy crashed",
                  extractedFileExists := true }
        transcribeStep := fun _ => Except.ok "hello"
        analysisStep := fun _ => Except.ok () }).createdDirs = ["/tmp/pv1"] ∧
    (analyze_interview
      { videoAvailable := true
        filePath := "clip.mp4"
        venv := { tempDirName := "/tmp/pv1", infoRes := InfoRes.ok 10,
                  ffmpegRes := Except.error "ffmpeg missing",
                  moviepyRes := Except.error "moviepy crashed",
                  extractedFileExists := true }
        transcribeStep := fun _ => Except.ok "hello"
        analysisStep := fun _ => Except.ok () }).cleanedDirs = [] ∧
    (analyze_interview
      { videoAvailable := true
        filePath := "clip.mp4"
        venv := { tempDirName := "/tmp/pv1", infoRes := InfoRes.ok 10,
                  ffmpegRes := Except.error "ffmpeg missing",
                  moviepyRes := Except.error "moviepy crashed",
                  extractedFileExists := true }
        transcribeStep := fun _ => Except.ok "hello"
        analysisStep := fun _ => Except.ok () }).report = fallbackReport := by
  refine ⟨?_, ?_, ?_⟩ <;> with_unfolding_all decide

/-- C3 amended: every exception in the pipeline is caught at the top
level and the complete hardcoded fallback report is returned; the temp
directory is cleaned up on the success path and on failure paths where
extraction had succeeded (the orchestrator's `temp_dir` was assigned);
but when video processing itself fails after creating its temp
directory, that directory is created and not cleaned up. -/
theorem C3_amended (env : InterviewEnv) :
    (extractionFailed env = true →
      (analyze_interview env).report = fallbackReport ∧
      (analyze_interview env).createdDirs = [env.venv.tempDirName] ∧
      (analyze_interview env).cleanedDirs = []) ∧
    (extractionFailed env = false →
      (analyze_interview env).cleanedDirs = (analyze_interview env).createdDirs ∧
      (laterFailed env = true → (analyze_interview env).report = fallbackReport)) := by
  constructor
  · intro h
    have hv : isVideoBranch env = true := by
      rcases hb : isVideoBranch env with _ | _
      · rw [extractionFailed, hb] at h; simp at h
      · rfl
    have hs : (pvOf env).result.success = false := by
      rw [extractionFailed, hv] at h
      simpa using h
    simp only [analyze_interview, hv, if_true, hs]
    simp [pv_created env]
  · intro h
    rcases hb : isVideoBranch env with _ | _
    · have hap : theAudioPath env = env.filePath := by
        simp [theAudioPath, hb]
      have hrun := runAfter_spec env [] none env.filePath
      simp only [analyze_interview, hb, Bool.false_eq_true, if_false]
      refine ⟨by rw [hrun.2.1, hrun.1]; rfl, fun hl => ?_⟩
      exact hrun.2.2 (by rw [← hap]; exact hl)
    · have hs : (pvOf env).result.success = true := by
        rw [extractionFailed, hb] at h
        simpa using h
      have hap : theAudioPath env = (pvOf env).result.audio_path := by
        simp [theAudioPath, hb, hs]
      have htd := pv_success_tempdir env hs
      have hrun := runAfter_spec env (pvOf env).createdDirs (pvOf env).result.temp_dir
        (pvOf env).result.audio_path
      simp only [analyze_interview, hb, if_true, hs]
      constructor
      · rw [hrun.2.1, hrun.1, htd, pv_created env]
        rfl
      · intro hl
        exact hrun.2.2 (by rw [← hap]; exact hl)

/-- C3 amended witness: an audio-file run whose transcription stage
raises; no temp directory was created, the cleanup lists agree, and the
fallback report is returned. -/
theorem C3_amended_witness :
    extractionFailed
      { videoAvailable := false
        filePath := "voice.wav"
        venv := { tempDirName := "/tmp/unused", infoRes := InfoRes.err "não",
                  ffmpegRes := Except.error "x", moviepyRes := Except.error "y",
                  extractedFileExists := false }
        transcribeStep := fun _ => Except.error "recognition failure"
        analysisStep := fun _ => Except.ok () } = false ∧
    laterFailed
      { videoAvailable := false
        filePath := "voice.wav"
        venv := { tempDirName := "/tmp/unused", infoRes := InfoRes.err "não",
                  ffmpegRes := Except.error "x", moviepyRes := Except.error "y",
                  extractedFileExists := false }
        transcribeStep := fun _ => Except.error "recognition failure"
        analysisStep := fun _ => Except.ok () } = true ∧
    (analyze_interview
      { videoAvailable := false
        filePath := "voice.wav"
        venv := { tempDirName := "/tmp/unused", infoRes := InfoRes.err "não",
                  ffmpegRes := Except.error "x", moviepyRes := Except.error "y",
                  extractedFileExists := false }
        transcribeStep := fun _ => Except.error "recognition failure"
        analysisStep := fun _ => Except.ok () }).cleanedDirs =
      (analyze_interview
        { videoAvailable := false
          filePath := "voice.wav"
          venv := { tempDirName := "/tmp/unused", infoRes := InfoRes.err "não",
                    ffmpegRes := Except.error "x", moviepyRes := Except.error "y",
                    extractedFileExists := false }
          transcribeStep := fun _ => Except.error "recognition failure"
          analysisStep := fun _ => Except.ok () }).createdDirs ∧
    (analyze_interview
      { videoAvailable := false
        filePath := "voice.wav"
        venv := { tempDirName := "/tmp/unused", infoRes := InfoRes.err "não",
                  ffmpegRes := Except.error "x", moviepyRes := Except.error "y",
                  extractedFileExists := false }
        transcribeStep := fun _ => Except.error "recognition failure"
        analysisStep := fun _ => Except.ok () }).report = fallbackReport := by
  have h := (C3_amended
    { videoAvailable := false
      filePath := "voice.wav"
      venv := { tempDirName := "/tmp/unused", infoRes := InfoRes.err "não",
                ffmpegRes := Except.error "x", moviepyRes := Except.error "y",
                extractedFileExists := false }
      transcribeStep := fun _ => Except.error "recognition failure"
      analysisStep := fun _ => Except.ok () }).2 (by with_unfolding_all decide)
  exact ⟨by with_unfolding_all decide, by with_unfolding_all decide, h.1,
    h.2 (by with_unfolding_all decide)⟩

/-- C4: for every transcript (the empty and whitespace-only ones
included) the speech analyzer's scores stay in their documented ranges
— confidence in [0,100], hesitation in [0,100], clarity in [50,100] —
and every division's denominator in the speech and sentiment analyzers
is positive (`max(total_words,1)`, `max(len(sentences),1)`, the
emotion denominator forced to at least 1, and the sentiment polarity
division only taken when the sentiment-word count is positive), so no
analyzer raises a ZeroDivisionError. -/
theorem C4_analyzer_safety (t : String) :
    (0 ≤ (analyze_speech_patterns t).confidence_score ∧
      (analyze_speech_patterns t).confidence_score ≤ 100) ∧
    (0 ≤ (analyze_speech_patterns t).hesitation_rate ∧
      (analyze_speech_patterns t).hesitation_rate ≤ 100) ∧
    (50 ≤ (analyze_speech_patterns t).clarity_score ∧
      (analyze_speech_patterns t).clarity_score ≤ 100) ∧
    0 < max (totalWords t) 1 ∧
    0 < max (sentenceList t).length 1 ∧
    0 < emotionDenominator t ∧
    (0 < positiveCount t + negativeCount t ∨ basicPolarity t = 1 / 10) := by
  refine ⟨confidence_score_range t, hesitation_score_range t, clarity_score_range t,
    ?_, ?_, ?_, ?_⟩
  · exact lt_of_lt_of_le Nat.one_pos (le_max_right _ _)
  · exact lt_of_lt_of_le Nat.one_pos (le_max_right _ _)
  · rw [emotionDenominator]
    split
    · exact Nat.one_pos
    · omega
  · rcases Nat.eq_zero_or_pos (positiveCount t + negativeCount t) with hz | hp
    · right
      simp [basicPolarity, hz]
    · left
      exact hp

/-- C5 counterexample: in the pipeline
`process_video_for_interview_analysis`, audio extraction does not
prefer the ffmpeg strategy — the MoviePy extractor is called directly.
With oracles where ffmpeg would succeed but MoviePy fails, the
ffmpeg-preferring function returns the extracted path, yet the
pipeline fails with the wrapped MoviePy error. -/
theorem C5_counterexample :
    extract_audio_with_ffmpeg (Except.ok "/tmp/v5/audio.wav") (Except.error "codec failure") =
      Except.ok "/tmp/v5/audio.wav" ∧
    (process_video_for_interview_analysis "talk.mp4"
      { tempDirName := "/tmp/v5", infoRes := InfoRes.ok 30,
        ffmpegRes := Except.ok "/tmp/v5/audio.wav",
        moviepyRes := Except.error "codec failure",
        extractedFileExists := true }).result.success = false ∧
    (process_video_for_interview_analysis "talk.mp4"
      { tempDirName := "/tmp/v5", infoRes := InfoRes.ok 30,
        ffmpegRes := Except.ok "/tmp/v5/audio.wav",
        moviepyRes := Except.error "codec failure",
        extractedFileExists := true }).result.error =
      "Audio extraction failed: codec failure" := by
  refine ⟨rfl, ?_, ?_⟩ <;> with_unfolding_all decide

/-- C5 amended: the ffmpeg-preferred strategy with MoviePy fallback is
implemented by `extract_audio_with_ffmpeg` — it returns the ffmpeg
result when that succeeds, falls back to the MoviePy path on ffmpeg
failure, and produces an error (a plain wrapped exception message, not
a dedicated ExtractionError class) only when both strategies fail —
but the pipeline `process_video_for_interview_analysis` invokes the
MoviePy extractor directly and its outcome is independent of the
ffmpeg oracle. -/
theorem C5_amended :
    (∀ (p : String) (mv : Except String String),
      extract_audio_with_ffmpeg (Except.ok p) mv = Except.ok p) ∧
    (∀ (e : String) (mv : Except String String),
      extract_audio_with_ffmpeg (Except.error e) mv = extract_audio_from_video mv) ∧
    (∀ e1 e2 : String,
      extract_audio_with_ffmpeg (Except.error e1) (Except.error e2) =
        Except.error ("Audio extraction failed: " ++ e2)) ∧
    (∀ (vp : String) (env : VideoEnv) (ff1 ff2 : Except String String),
      process_video_for_interview_analysis vp { env with ffmpegRes := ff1 } =
        process_video_for_interview_analysis vp { env with ffmpegRes := ff2 }) :=
  ⟨fun _ _ => rfl, fun _ _ => rfl, fun _ _ => rfl, fun _ _ _ _ => rfl⟩

/-- C6 counterexample: for a transcript with no emotion-keyword hits
(here the empty transcript) the `or 1` denominator makes every
percentage 0, so the emotion percentages sum to 0 — not approximately
100 as claimed. -/
theorem C6_counterexample :
    emotionTotalHits "" = 0 ∧
    emotionPercentSum "" = 0 ∧
    (analyze_sentiment_emotions false 0 0 "").emotion_breakdown =
      [("enthusiasm", 0), ("confidence", 0), ("nervousness", 0),
       ("professionalism", 0), ("curiosity", 0)] := by
  refine ⟨?_, ?_, ?_⟩ <;> with_unfolding_all decide

/-- C6 amended: the emotion breakdown maps the 5 fixed emotion names,
in insertion order, to the integer percentages of the keyword-hit
counts over the denominator forced to at least 1, and dominant_emotion
is the first-seen key of maximum percentage; when the transcript has at
least one keyword hit the percentages sum into [95, 100] (truncation
loses less than one point per category), but with zero hits they sum
to 0, not approximately 100. -/
theorem C6_amended (advanced : Bool) (bp bs : ℚ) (t : String) :
    (analyze_sentiment_emotions advanced bp bs t).emotion_breakdown = emotionPercentages t ∧
    (emotionPercentages t).map Prod.fst =
      ["enthusiasm", "confidence", "nervousness", "professionalism", "curiosity"] ∧
    (analyze_sentiment_emotions advanced bp bs t).dominant_emotion =
      specFirstMax (emotionPercentages t) ∧
    (emotionTotalHits t = 0 → emotionPercentSum t = 0) ∧
    (0 < emotionTotalHits t → 95 ≤ emotionPercentSum t ∧ emotionPercentSum t ≤ 100) := by
  refine ⟨rfl, ?_, ?_, ?_, ?_⟩
  · simp [emotionPercentages, emotionScores, emotion_keywords]
  · show argmaxFirst (emotionPercentages t) = specFirstMax (emotionPercentages t)
    apply argmaxFirst_eq_specFirstMax
    simp [emotionPercentages, emotionScores, emotion_keywords]
  · intro h
    exact pct_sum_zero (emotionDenominator t) (emotionScores t) h
  · intro h
    have hne : emotionTotalHits t ≠ 0 := by omega
    have hT : emotionDenominator t = emotionTotalHits t := by
      rw [emotionDenominator, if_neg hne]
    have hTpos : 0 < emotionDenominator t := by omega
    have hb := pct_sum_bounds (emotionDenominator t) hTpos (emotionScores t)
    have hlen : (emotionScores t).length = 5 := by
      simp [emotionScores, emotion_keywords]
    have hsum : ((emotionScores t).map Prod.snd).sum = emotionDenominator t := hT.symm
    rw [hlen, hsum] at hb
    have hdiv : ((emotionDenominator t : Nat) : ℚ) * 100 / ((emotionDenominator t : Nat) : ℚ) =
        100 := by
      rw [mul_comm, mul_div_assoc, div_self, mul_one]
      exact_mod_cast (by omega : emotionDenominator t ≠ 0)
    rw [hdiv] at hb
    have hc5 : ((5 : Nat) : ℚ) = 5 := by norm_num
    rw [hc5] at hb
    have h95 : (95 : ℚ) ≤
        ((((emotionScores t).map
          (fun p => (p.1, pctOf (emotionDenominator t) p.2))).map Prod.snd).sum : ℚ) := by
      linarith [hb.2]
    constructor
    · show (95 : ℤ) ≤ (((emotionScores t).map
        (fun p => (p.1, pctOf (emotionDenominator t) p.2))).map Prod.snd).sum
      exact_mod_cast h95
    · show (((emotionScores t).map
        (fun p => (p.1, pctOf (emotionDenominator t) p.2))).map Prod.snd).sum ≤ (100 : ℤ)
      exact_mod_cast hb.1

/-- C6 amended witness at the transcript "excited" (one enthusiasm
hit): the nonzero-hit bounds apply and the percentages sum to exactly
100, with dominant emotion "enthusiasm". -/
theorem C6_amended_witness :
    0 < emotionTotalHits "excited" ∧
    95 ≤ emotionPercentSum "excited" ∧ emotionPercentSum "excited" ≤ 100 ∧
    specFirstMax (emotionPercentages "excited") = "enthusiasm" := by
  have h := (C6_amended false 0 0 "excited").2.2.2.2 (by with_unfolding_all decide)
  exact ⟨by with_unfolding_all decide, h.1, h.2, by with_unfolding_all decide⟩

/-- C7: when the recognition backend is unavailable `transcribe_audio`
returns the fixed demo sentence immediately, and for every outcome of
the recognition oracle the function returns a string — the
"could not understand" literal, the service-error string, one of the
two canned demo transcripts, or the lowercased recognised text — so
callers always receive text and no failure propagates. -/
theorem C7_transcribe_total (advanced : Bool) (recognize : String → RecogOutcome)
    (audio_path : String) :
    (advanced = false →
      transcribe_audio advanced recognize audio_path = DEMO_TRANSCRIPT_UNAVAILABLE) ∧
    (transcribe_audio advanced recognize audio_path = DEMO_TRANSCRIPT_UNAVAILABLE ∨
     transcribe_audio advanced recognize audio_path = "Could not understand audio clearly" ∨
     (∃ e, recognize audio_path = RecogOutcome.requestError e ∧
       transcribe_audio advanced recognize audio_path =
         "Error with speech recognition service: " ++ e) ∨
     transcribe_audio advanced recognize audio_path = DEMO_TRANSCRIPT_FALLBACK ∨
     (∃ s, recognize audio_path = RecogOutcome.success s ∧
       transcribe_audio advanced recognize audio_path = pyToLower s)) := by
  constructor
  · intro h
    simp [transcribe_audio, h]
  · cases ha : advanced with
    | false => exact Or.inl (by simp [transcribe_audio])
    | true =>
      cases hr : recognize audio_path with
      | success s =>
        exact Or.inr (Or.inr (Or.inr (Or.inr ⟨s, rfl, by simp [transcribe_audio, hr]⟩)))
      | unknownValue =>
        exact Or.inr (Or.inl (by simp [transcribe_audio, hr]))
      | requestError e =>
        exact Or.inr (Or.inr (Or.inl ⟨e, rfl, by simp [transcribe_audio, hr]⟩))
      | otherError m =>
        exact Or.inr (Or.inr (Or.inr (Or.inl (by simp [transcribe_audio, hr]))))

/-- C7 witness: with the backend unavailable the demo sentence is
returned regardless of the recognition outcome. -/
theorem C7_witness :
    transcribe_audio false (fun _ => RecogOutcome.unknownValue) "interview.wav" =
      DEMO_TRANSCRIPT_UNAVAILABLE :=
  (C7_transcribe_total false (fun _ => RecogOutcome.unknownValue) "interview.wav").1 rfl

/-- C8: the content analyzer's sub-scores are exactly
`min(40, 8·technical matches)`, `min(30, 6·soft matches)` and
`min(30, 3·experience matches)` over the fixed keyword lists, and
content_quality_score is their sum, hence at most 100. -/
theorem C8_content_scores (t : String) :
    (analyze_content_quality t).technical_score =
      min 40 ((mentionedIn t technical_skills).length * 8) ∧
    (analyze_content_quality t).soft_skills_score =
      min 30 ((mentionedIn t soft_skills).length * 6) ∧
    (analyze_content_quality t).experience_score =
      min 30 ((mentionedIn t experience_indicators).length * 3) ∧
    (analyze_content_quality t).content_quality_score =
      (analyze_content_quality t).technical_score +
        (analyze_content_quality t).soft_skills_score +
        (analyze_content_quality t).experience_score ∧
    (analyze_content_quality t).content_quality_score ≤ 100 := by
  refine ⟨rfl, rfl, rfl, rfl, ?_⟩
  have h1 : min 40 ((mentionedIn t technical_skills).length * 8) ≤ 40 := min_le_left _ _
  have h2 : min 30 ((mentionedIn t soft_skills).length * 6) ≤ 30 := min_le_left _ _
  have h3 : min 30 ((mentionedIn t experience_indicators).length * 3) ≤ 30 := min_le_left _ _
  show min 40 ((mentionedIn t technical_skills).length * 8) +
      min 30 ((mentionedIn t soft_skills).length * 6) +
      min 30 ((mentionedIn t experience_indicators).length * 3) ≤ 100
  omega

/-- C9: `is_video_file` holds exactly when the lowercased path suffix
belongs to the fixed extension set, and the documented examples behave
as stated: "clip.MP4" is a video, "voice.wav" and "notes.txt" are not. -/
theorem C9_is_video_file :
    (∀ p : String, is_video_file p = true ↔
      pyToLower (pathSuffix p) ∈
        ([".mp4", ".avi", ".mov", ".mkv", ".webm", ".flv", ".wmv", ".m4v"] : List String)) ∧
    is_video_file "clip.MP4" = true ∧
    is_video_file "voice.wav" = false ∧
    is_video_file "notes.txt" = false := by
  refine ⟨fun p => ?_, by decide, by decide, by decide⟩
  simp [is_video_file, SUPPORTED_VIDEO_FORMATS, List.contains]

/-- C10: validate_video_file rejects any probed duration below one
second with the "empty or corrupted" validation error, whenever the
file exists, its size is within the 100MB limit, its extension is
supported and the probe succeeded — the max-duration check cannot fire
first because a sub-second duration is below 600. -/
theorem C10_min_duration (fs : FileState) (dur : ℚ)
    (h1 : fs.fileExists = true)
    (h2 : (fs.sizeBytes : ℚ) / (1024 * 1024) ≤ 100)
    (h3 : SUPPORTED_VIDEO_FORMATS.contains (pyToLower (pathSuffix fs.path)) = true)
    (h4 : fs.libsAvailable = true)
    (h5 : fs.infoRes = InfoRes.ok dur)
    (h6 : dur < 1) :
    validate_video_file fs 100 600 =
      ValidationResult.invalid "Video file appears to be empty or corrupted" := by
  have hns : ¬ (100 : ℚ) < (fs.sizeBytes : ℚ) / (1024 * 1024) := not_lt.mpr h2
  have hnd : ¬ (600 : ℚ) < dur := by linarith
  have h3m : pyToLower (pathSuffix fs.path) ∈ SUPPORTED_VIDEO_FORMATS := by
    simpa [List.contains] using h3
  simp [validate_video_file, h1, h3m, h4, h5, hns, hnd, h6]

/-- C10 witness: a 1MB existing "tiny.mp4" whose probe reports a half
second of video is rejected as empty or corrupted. -/
theorem C10_witness :
    validate_video_file
      { fileExists := true, sizeBytes := 1048576, path := "tiny.mp4",
        libsAvailable := true, infoRes := InfoRes.ok (1 / 2) } 100 600 =
      ValidationResult.invalid "Video file appears to be empty or corrupted" :=
  C10_min_duration
    { fileExists := true, sizeBytes := 1048576, path := "tiny.mp4",
      libsAvailable := true, infoRes := InfoRes.ok (1 / 2) } (1 / 2)
    rfl (by norm_num) (by with_unfolding_all decide) rfl rfl (by norm_num)
